import Mathlib

/-!
Verification of the claims-processing workflow core of this repository:
validation gates, the fail-fast pipeline engine, bounded retry, the
evaluator-optimizer loop, and the parallel fan-out synthesis step.

Definitions are shallow embeddings of the Python sources:
  - course1/claims-workflow/src/gates.py, src/state.py,
    src/agents/claims_processor.py
  - course1/7-chaining_prompts/chaining-prompting_langgraph.py
  - course2-workflows/06-evaluation_optimizer/demo.py, demo_professional.py
  - course2-workflows/05-parallelization/demo.py, challenge.py
  - course2-workflows/project/starter/phase_1/workflow_agents/base_agents.py
LLM calls (the Completion Service) are external collaborators: each step is
parametrized by the outcome of its completion-plus-gate call, so theorems
quantify over every possible collaborator behaviour.
-/

/-! ## Data model: gates.py / state.py (claims-workflow) -/

/-- Severity levels, the `Literal["Low", "Medium", "High"]` pydantic field. -/
inductive Severity
| low
| medium
| high
deriving DecidableEq, Repr

/-- `SeverityAssessment` from state.py: severity level, numeric cost estimate,
and a reasoning string.  The float `est_cost` is embedded as a rational. -/
structure SeverityAssessment where
  severity : Severity
  est_cost : ℚ
  reasoning : String
deriving DecidableEq, Repr

/-- The `cost_ranges` table of gates.py lines 54-58. -/
def cost_ranges (severity : Severity) : ℚ × ℚ :=
  match severity with
  | Severity.low => (100, 1000)
  | Severity.medium => (1000, 5000)
  | Severity.high => (5000, 50000)

/-- Gate 2 of gates.py (`gate2_cost_range_ok`, lines 28-78).  The JSON
parse plus pydantic validation is modelled by the `Option`: `none` is a
parse/validation failure (the code raises a formatting `ValueError`), and
`some v` is the successfully parsed record.  The cost-range check mirrors
the source: inclusive lower bound for `Low`, strict lower bound otherwise,
inclusive upper bound everywhere.  The same logic appears in
chaining-prompting.py lines 251-268 and chaining-prompting_langgraph.py
lines 187-207. -/
def gate2_cost_range_ok (parsed : Option SeverityAssessment) :
    Except String SeverityAssessment :=
  match parsed with
  | none => Except.error "Invalid severity assessment format"
  | some validated =>
    let cost := validated.est_cost
    let bounds := cost_ranges validated.severity
    match validated.severity with
    | Severity.low =>
      if bounds.1 ≤ cost ∧ cost ≤ bounds.2 then Except.ok validated
      else Except.error ("Cost $" ++ toString cost ++ " out of range for Low severity")
    | Severity.medium =>
      if bounds.1 < cost ∧ cost ≤ bounds.2 then Except.ok validated
      else Except.error ("Cost $" ++ toString cost ++ " out of range for Medium severity")
    | Severity.high =>
      if bounds.1 < cost ∧ cost ≤ bounds.2 then Except.ok validated
      else Except.error ("Cost $" ++ toString cost ++ " out of range for High severity")

/-- The severity-specific interval of the spec, stated in the spec's own
words: Low in [100,1000] (both ends inclusive), Medium in (1000,5000],
High in (5000,50000]. -/
def specCostInterval (severity : Severity) (cost : ℚ) : Prop :=
  match severity with
  | Severity.low => 100 ≤ cost ∧ cost ≤ 1000
  | Severity.medium => 1000 < cost ∧ cost ≤ 5000
  | Severity.high => 5000 < cost ∧ cost ≤ 50000

instance (severity : Severity) (cost : ℚ) : Decidable (specCostInterval severity cost) := by
  cases severity <;> simp only [specCostInterval] <;> infer_instance

/-- C1: a record is accepted by the Assessment Gate exactly when its
`est_cost` lies in the interval bound to its severity (Low: 100 ≤ c ≤ 1000,
Medium: 1000 < c ≤ 5000, High: 5000 < c ≤ 50000); in particular Low at
cost 1000 is accepted, Low at cost 1000.01 is rejected, and a record that
fails parsing is rejected. -/
theorem gate2_accepts_iff_cost_in_severity_interval :
    (∀ v : SeverityAssessment,
        (gate2_cost_range_ok (some v)).isOk = true ↔
          specCostInterval v.severity v.est_cost) ∧
    (gate2_cost_range_ok (some ⟨Severity.low, 1000, "boundary"⟩)).isOk = true ∧
    (gate2_cost_range_ok (some ⟨Severity.low, 100001 / 100, "boundary"⟩)).isOk = false ∧
    (gate2_cost_range_ok (none : Option SeverityAssessment)).isOk = false := by
  have main : ∀ v : SeverityAssessment,
      (gate2_cost_range_ok (some v)).isOk = true ↔
        specCostInterval v.severity v.est_cost := by
    intro v
    obtain ⟨severity, cost, reasoning⟩ := v
    cases severity <;>
      simp only [gate2_cost_range_ok, cost_ranges] <;>
      split_ifs with h <;>
      simp_all [specCostInterval, Except.isOk, Except.toBool]
  refine ⟨main, (main _).mpr (by norm_num [specCostInterval]), ?_, ?_⟩
  · rw [Bool.eq_false_iff]
    intro hc
    have h := (main ⟨Severity.low, 100001 / 100, "boundary"⟩).mp hc
    norm_num [specCostInterval] at h
  · simp [gate2_cost_range_ok, Except.isOk, Except.toBool]

/-! ## Claims-workflow pipeline: claims_processor.py (C2, C9) -/

/-- `ClaimInformation` from claims-workflow/src/state.py. -/
structure ClaimInformation where
  claim_id : String
  policy_number : String
  claimant_name : String
  incident_date : String
  incident_type : String
  damage_description : String
  location : String
deriving DecidableEq, Repr

/-- The `Literal["auto", "manual", "specialist"]` queue field. -/
inductive Queue
| auto
| manual
| specialist
deriving DecidableEq, Repr

/-- The `Literal["low", "medium", "high"]` priority field. -/
inductive Priority
| low
| medium
| high
deriving DecidableEq, Repr

/-- `ClaimRouting` from claims-workflow/src/state.py. -/
structure ClaimRouting where
  queue : Queue
  priority : Priority
  reasoning : String
deriving DecidableEq, Repr

/-- `ClaimState`, the LangGraph state TypedDict of claims-workflow. -/
structure ClaimState where
  fnol : String
  model : String
  claim_info : Option ClaimInformation
  severity : Option SeverityAssessment
  routing : Option ClaimRouting
  errors : List String
  status : String
deriving DecidableEq, Repr

/-- Node 1 of claims_processor.py (lines 31-63).  The completion call plus
gate 1 is the external collaborator; `res` is its outcome (`Except.error`
is any exception caught by the node's handler).  On success the node
writes `claim_info` and advances `status`; on failure it appends to
`errors` and sets `status` to failed. -/
def extract_claim_node (res : Except String ClaimInformation)
    (state : ClaimState) : ClaimState :=
  match res with
  | Except.ok claimInfo =>
    { state with claim_info := some claimInfo, status := "claim_extracted" }
  | Except.error e =>
    { state with errors := state.errors ++ ["Extraction error: " ++ e],
                 status := "failed" }

/-- Node 2 of claims_processor.py (lines 66-104): completion plus gate 2. -/
def assess_severity_node (res : Except String SeverityAssessment)
    (state : ClaimState) : ClaimState :=
  match res with
  | Except.ok sev =>
    { state with severity := some sev, status := "severity_assessed" }
  | Except.error e =>
    { state with errors := state.errors ++ ["Severity error: " ++ e],
                 status := "failed" }

/-- Node 3 of claims_processor.py (lines 107-145): completion plus gate 3. -/
def route_claim_node (res : Except String ClaimRouting)
    (state : ClaimState) : ClaimState :=
  match res with
  | Except.ok routing =>
    { state with routing := some routing, status := "completed" }
  | Except.error e =>
    { state with errors := state.errors ++ ["Routing error: " ++ e],
                 status := "failed" }

/-- The conditional-edge function of claims_processor.py lines 152-167. -/
def should_continue (state : ClaimState) : String :=
  if state.status = "failed" then "end" else "continue"

/-- The compiled graph of `build_graph` (claims_processor.py lines 174-217):
START → extract_claim → (cond) → assess_severity → (cond) → route_claim →
END, with each conditional edge routing to END when `should_continue`
returns "end".  Returns the final state together with the list of node
names that executed. -/
def run_claims_pipeline (resE : Except String ClaimInformation)
    (resA : Except String SeverityAssessment)
    (resR : Except String ClaimRouting) (s0 : ClaimState) :
    ClaimState × List String :=
  let s1 := extract_claim_node resE s0
  if should_continue s1 = "end" then (s1, ["extract_claim"])
  else
    let s2 := assess_severity_node resA s1
    if should_continue s2 = "end" then (s2, ["extract_claim", "assess_severity"])
    else (route_claim_node resR s2,
          ["extract_claim", "assess_severity", "route_claim"])

/-- C2: `should_continue` returns "end" exactly when `status` is "failed"
(and "continue" otherwise), and once a step of the pipeline fails, no
later step of the declared order executes and the returned record has
status "failed".  A step returns a failed result exactly when its
completion-plus-gate outcome is an error, since success always sets a
non-"failed" stage name. -/
theorem claims_pipeline_fail_fast :
    (∀ s : ClaimState,
        (should_continue s = "end" ↔ s.status = "failed") ∧
        (should_continue s = "continue" ↔ s.status ≠ "failed")) ∧
    (∀ (resE : Except String ClaimInformation)
        (resA : Except String SeverityAssessment)
        (resR : Except String ClaimRouting) (s0 : ClaimState),
      (resE.isOk = false →
        run_claims_pipeline resE resA resR s0 =
          (extract_claim_node resE s0, ["extract_claim"]) ∧
        (run_claims_pipeline resE resA resR s0).1.status = "failed") ∧
      (resE.isOk = true → resA.isOk = false →
        run_claims_pipeline resE resA resR s0 =
          (assess_severity_node resA (extract_claim_node resE s0),
           ["extract_claim", "assess_severity"]) ∧
        (run_claims_pipeline resE resA resR s0).1.status = "failed") ∧
      (resE.isOk = true → resA.isOk = true → resR.isOk = false →
        (run_claims_pipeline resE resA resR s0).1.status = "failed")) := by
  constructor
  · intro s
    constructor
    · constructor
      · intro h
        by_contra hs
        simp [should_continue, hs] at h
      · intro h
        simp [should_continue, h]
    · constructor
      · intro h hs
        simp [should_continue, hs] at h
      · intro h
        simp [should_continue, h]
  · intro resE resA resR s0
    refine ⟨?_, ?_, ?_⟩
    · intro hE
      cases resE with
      | ok v => simp [Except.isOk, Except.toBool] at hE
      | error e =>
        simp [run_claims_pipeline, extract_claim_node, should_continue]
    · intro hE hA
      cases resE with
      | error e => simp [Except.isOk, Except.toBool] at hE
      | ok v =>
        cases resA with
        | ok w => simp [Except.isOk, Except.toBool] at hA
        | error e =>
          simp [run_claims_pipeline, extract_claim_node, assess_severity_node,
                should_continue]
    · intro hE hA hR
      cases resE with
      | error e => simp [Except.isOk, Except.toBool] at hE
      | ok v =>
        cases resA with
        | error e => simp [Except.isOk, Except.toBool] at hA
        | ok w =>
          cases resR with
          | ok r => simp [Except.isOk, Except.toBool] at hR
          | error e =>
            simp [run_claims_pipeline, extract_claim_node, assess_severity_node,
                  route_claim_node, should_continue]

/-- A sample initial case record used by concrete witnesses. -/
def sampleClaimState : ClaimState :=
  { fnol := "Claim ID: C001. Windshield chip on highway."
    model := "gpt-4o-mini"
    claim_info := none
    severity := none
    routing := none
    errors := []
    status := "pending" }

/-- Witness for C2: with a failing extraction gate the pipeline executes
only the first step and returns a failed record. -/
theorem claims_pipeline_fail_fast_witness :
    run_claims_pipeline (Except.error "Invalid claim information format")
        (Except.error "unused") (Except.error "unused") sampleClaimState =
      (extract_claim_node (Except.error "Invalid claim information format")
        sampleClaimState, ["extract_claim"]) ∧
    (run_claims_pipeline (Except.error "Invalid claim information format")
        (Except.error "unused") (Except.error "unused")
        sampleClaimState).1.status = "failed" :=
  (claims_pipeline_fail_fast.2 _ _ _ sampleClaimState).1 (by decide)

/-- The sequence of case records observed along a pipeline run: the
initial record followed by the record after each node that executed
(conditional edges as in `build_graph`). -/
def pipeline_states (resE : Except String ClaimInformation)
    (resA : Except String SeverityAssessment)
    (resR : Except String ClaimRouting) (s0 : ClaimState) : List ClaimState :=
  let s1 := extract_claim_node resE s0
  if should_continue s1 = "end" then [s0, s1]
  else
    let s2 := assess_severity_node resA s1
    if should_continue s2 = "end" then [s0, s1, s2]
    else [s0, s1, s2, route_claim_node resR s2]

/-- Rank of a status along the forward order of the claim lifecycle
(spec names: pending → extracted → assessed → completed; code strings:
"pending" → "claim_extracted" → "severity_assessed" → "completed"). -/
def statusRank (status : String) : Nat :=
  if status = "claim_extracted" then 1
  else if status = "severity_assessed" then 2
  else if status = "completed" then 3
  else 0

/-- The per-transition invariant of the Case Record: errors only grow (the
old list is a prefix of the new one), status only moves forward unless the
step failed, and each structured field, once populated, is never changed. -/
def record_step_ok (a b : ClaimState) : Prop :=
  a.errors <+: b.errors ∧
  (b.status = "failed" ∨ statusRank a.status ≤ statusRank b.status) ∧
  (a.claim_info ≠ none → b.claim_info = a.claim_info) ∧
  (a.severity ≠ none → b.severity = a.severity) ∧
  (a.routing ≠ none → b.routing = a.routing)

/-- C9: every step of the claims pipeline preserves the Case Record
invariants: along any run from a fresh record (status "pending", no
structured fields populated), consecutive observed records satisfy
`record_step_ok` — errors are append-only, each structured field is
written by at most one step and untouched afterwards, and status never
moves backward except into the absorbing "failed". -/
theorem claims_steps_preserve_invariants
    (resE : Except String ClaimInformation)
    (resA : Except String SeverityAssessment)
    (resR : Except String ClaimRouting) (s0 : ClaimState)
    (hst : s0.status = "pending") (hci : s0.claim_info = none)
    (hsev : s0.severity = none) (hrt : s0.routing = none) :
    List.Chain' record_step_ok (pipeline_states resE resA resR s0) := by
  cases resE with
  | error e =>
    simp [pipeline_states, extract_claim_node, should_continue,
      record_step_ok, statusRank, hst, hci, hsev, hrt]
  | ok v =>
    cases resA with
    | error e =>
      simp [pipeline_states, extract_claim_node, assess_severity_node,
        should_continue, record_step_ok, statusRank, hst, hci, hsev, hrt]
    | ok w =>
      cases resR with
      | error e =>
        simp [pipeline_states, extract_claim_node, assess_severity_node,
          route_claim_node, should_continue, record_step_ok, statusRank,
          hst, hci, hsev, hrt]
      | ok r =>
        simp [pipeline_states, extract_claim_node, assess_severity_node,
          route_claim_node, should_continue, record_step_ok, statusRank,
          hst, hci, hsev, hrt]

/-- Witness for C9: the invariants hold along a concrete fully-successful
run from a fresh record. -/
theorem claims_steps_preserve_invariants_witness :
    List.Chain' record_step_ok
      (pipeline_states
        (Except.ok ⟨"C001", "P-42", "Ada", "2025-01-01", "collision",
          "Windshield chip from road debris on the highway", "I-80"⟩)
        (Except.ok ⟨Severity.low, 350, "glass chip"⟩)
        (Except.ok ⟨Queue.auto, Priority.low, "simple glass claim"⟩)
        sampleClaimState) :=
  claims_steps_preserve_invariants _ _ _ sampleClaimState rfl rfl rfl rfl

/-! ## Retrying extraction step: chaining-prompting_langgraph.py (C3, C8) -/

/-- The closed set of damage areas of the LangGraph `ClaimInformation`. -/
inductive DamageArea
| windshield
| front
| rear
| side
| roof
| hood
| door
| bumper
| fender
| quarterPanel
| trunk
| glass
deriving DecidableEq, Repr

/-- `ClaimInformation` of chaining-prompting_langgraph.py (lines 84-94). -/
structure ClaimInformationLG where
  claim_id : String
  name : String
  vehicle : String
  loss_desc : String
  damage_area : List DamageArea
deriving DecidableEq, Repr

/-- `SeverityAssessment` of chaining-prompting_langgraph.py. -/
structure SeverityAssessmentLG where
  severity : Severity
  est_cost : ℚ
deriving DecidableEq, Repr

/-- The LangGraph routing queues. -/
inductive QueueLG
| glass
| fast_track
| material_damage
| total_loss
deriving DecidableEq, Repr

/-- `ClaimRouting` of chaining-prompting_langgraph.py. -/
structure ClaimRoutingLG where
  claim_id : String
  queue : QueueLG
deriving DecidableEq, Repr

/-- `ClaimWorkflowState` of chaining-prompting_langgraph.py (lines 111-120). -/
structure ClaimWorkflowState where
  fnol : String
  claim_info : Option ClaimInformationLG
  severity : Option SeverityAssessmentLG
  routing : Option ClaimRoutingLG
  errors : List String
  retry_count : Nat
  status : String
  model : String
deriving DecidableEq, Repr

/-- The two kinds of exception an attempt can raise inside
`extract_claim_node`: the `RuntimeError` that `get_completion` wraps
around any API failure (lines 68-77, a transport error), and the
`ValueError` raised by `gate1_validate_claims_info` on invalid output
(lines 178-184, a validation error).  Both reach the node's single
`except Exception` handler. -/
inductive StepFailure
| transportFailure (msg : String)
| validationFailure (msg : String)
deriving DecidableEq, Repr

/-- The message the node interpolates into its error-list entry
(`f"Extraction error: {e}"`): the raiser's own rendering. -/
def StepFailure.message : StepFailure → String
  | StepFailure.transportFailure msg => "API error: " ++ msg
  | StepFailure.validationFailure msg => "Invalid claim format: " ++ msg

/-- Node 1 of chaining-prompting_langgraph.py (`extract_claim_node`,
lines 223-253).  `respond n` is the outcome of the completion call plus
gate 1 when the state's retry counter is `n` (the collaborator may answer
differently on each attempt).  On success the node records the claim and
advances; on any exception it appends the error, increments
`retry_count`, and if the counter is still below 3 calls itself again,
otherwise returns the state marked "failed".  The second component
counts how many completion invocations were performed. -/
def extract_claim_node_lg
    (respond : Nat → Except StepFailure ClaimInformationLG)
    (state : ClaimWorkflowState) : ClaimWorkflowState × Nat :=
  match respond state.retry_count with
  | Except.ok claimInfo =>
    ({ state with claim_info := some claimInfo, status := "claim_extracted" }, 1)
  | Except.error e =>
    let state1 := { state with
      errors := state.errors ++ ["Extraction error: " ++ e.message],
      retry_count := state.retry_count + 1 }
    if h : state1.retry_count < 3 then
      let next := extract_claim_node_lg respond state1
      (next.1, next.2 + 1)
    else
      ({ state1 with status := "failed" }, 1)
termination_by 3 - state.retry_count
decreasing_by
  simp only [state1] at h
  omega

/-- C3: a retrying step whose Gate rejects every response performs exactly
3 completion invocations from `retry_count = 0`, never a 4th, and returns
status "failed" on the 3rd rejection.  `msgs n` is the validation message
of attempt `n`, so the theorem covers every always-rejecting
collaborator. -/
theorem extract_claim_retry_bound (msgs : Nat → String)
    (s : ClaimWorkflowState) (h : s.retry_count = 0) :
    (extract_claim_node_lg
      (fun n => Except.error (StepFailure.validationFailure (msgs n))) s).2 = 3 ∧
    (extract_claim_node_lg
      (fun n => Except.error (StepFailure.validationFailure (msgs n))) s).1.status
      = "failed" := by
  rw [extract_claim_node_lg]
  simp only [h]
  rw [extract_claim_node_lg]
  simp only [h]
  rw [extract_claim_node_lg]
  simp [h]

/-- The initial workflow state built by `process_claim`
(chaining-prompting_langgraph.py lines 377-386). -/
def cwInitialState : ClaimWorkflowState :=
  { fnol := "Claim ID: C001. Rear bumper dented in parking lot."
    claim_info := none
    severity := none
    routing := none
    errors := []
    retry_count := 0
    status := "processing"
    model := "gpt-4.1-mini" }

/-- Witness for C3: a concrete always-rejecting run performs exactly 3
attempts and fails. -/
theorem extract_claim_retry_bound_witness :
    (extract_claim_node_lg
      (fun n => Except.error (StepFailure.validationFailure
        ("missing field on attempt " ++ toString n))) cwInitialState).2 = 3 ∧
    (extract_claim_node_lg
      (fun n => Except.error (StepFailure.validationFailure
        ("missing field on attempt " ++ toString n))) cwInitialState).1.status
      = "failed" :=
  extract_claim_retry_bound
    (fun n => "missing field on attempt " ++ toString n) cwInitialState rfl

/-- C8 counterexample: when every completion call raises the transport
`RuntimeError` of `get_completion`, the step performs 3 invocations, not
1 — the transport failure is retried through the catch-all handler
rather than propagated immediately as the claim states. -/
theorem transport_failure_retried_counterexample :
    (extract_claim_node_lg
      (fun _ => Except.error (StepFailure.transportFailure "connection refused"))
      cwInitialState).2 = 3 ∧
    (extract_claim_node_lg
      (fun _ => Except.error (StepFailure.transportFailure "connection refused"))
      cwInitialState).2 ≠ 1 := by
  rw [extract_claim_node_lg]
  simp only [cwInitialState]
  rw [extract_claim_node_lg]
  simp only [cwInitialState]
  rw [extract_claim_node_lg]
  simp [cwInitialState]

/-- C8 amended: the node's single `except Exception` handler treats a
transport failure exactly like a validation failure: it consumes the
retry budget, performing exactly 3 invocations, appending one error entry
per attempt, and returning status "failed" — it is not propagated
immediately. -/
theorem transport_failure_consumes_retry_budget (msg : String)
    (s : ClaimWorkflowState) (h : s.retry_count = 0) :
    (extract_claim_node_lg
      (fun _ => Except.error (StepFailure.transportFailure msg)) s).2 = 3 ∧
    (extract_claim_node_lg
      (fun _ => Except.error (StepFailure.transportFailure msg)) s).1.status
      = "failed" ∧
    (extract_claim_node_lg
      (fun _ => Except.error (StepFailure.transportFailure msg)) s).1.errors
      = s.errors ++ ["Extraction error: API error: " ++ msg,
                     "Extraction error: API error: " ++ msg,
                     "Extraction error: API error: " ++ msg] := by
  rw [extract_claim_node_lg]
  simp only [h]
  rw [extract_claim_node_lg]
  simp only [h]
  rw [extract_claim_node_lg]
  simp [h, StepFailure.message]
  rw [← String.append_assoc]
  rfl

/-- Witness for the amended C8 theorem at a concrete transport error. -/
theorem transport_failure_consumes_retry_budget_witness :
    (extract_claim_node_lg
      (fun _ => Except.error (StepFailure.transportFailure "auth rejected"))
      cwInitialState).2 = 3 ∧
    (extract_claim_node_lg
      (fun _ => Except.error (StepFailure.transportFailure "auth rejected"))
      cwInitialState).1.status = "failed" ∧
    (extract_claim_node_lg
      (fun _ => Except.error (StepFailure.transportFailure "auth rejected"))
      cwInitialState).1.errors
      = cwInitialState.errors ++
        ["Extraction error: API error: auth rejected",
         "Extraction error: API error: auth rejected",
         "Extraction error: API error: auth rejected"] := by
  have h := transport_failure_consumes_retry_budget "auth rejected"
    cwInitialState rfl
  refine ⟨h.1, h.2.1, ?_⟩
  rw [h.2.2]
  rfl

/-! ## Text approval decisions (C10) -/

/-- Python `str.lower()` on the character sequence of a string (ASCII
case-folding, which covers every token compared here). -/
def lowerChars (s : List Char) : List Char := s.map Char.toLower

/-- Python `str.strip()`: drop leading and trailing whitespace. -/
def stripChars (s : List Char) : List Char :=
  ((s.dropWhile Char.isWhitespace).reverse.dropWhile Char.isWhitespace).reverse

/-- Python `s.startswith(p)` on character sequences. -/
def startsWithChars : List Char → List Char → Bool
  | [], _ => true
  | _ :: _, [] => false
  | p :: ps, c :: cs => p = c && startsWithChars ps cs

/-- `str.strip()` lifted to `String`. -/
def pyStrip (s : String) : String := String.mk (stripChars s.data)

/-- The convergence test of 06-evaluation_optimizer/demo.py line 108:
`evaluation.lower().startswith("approved")`, applied to the evaluation
text (already stripped by `ComplianceAgent.run`, line 83). -/
def compliance_approved (evaluation : String) : Bool :=
  startsWithChars "approved".data (lowerChars evaluation.data)

/-- The approval check of base_agents.py line 416:
`evaluation.lower().startswith("yes")`, applied to the stripped
evaluation text (line 411). -/
def yes_approved (evaluation : String) : Bool :=
  startsWithChars "yes".data (lowerChars evaluation.data)

/-- The full decision of the compliance loop on the raw Completion
Service reply: the agent strips it, then the loop lowercases and
tests the leading token. -/
def compliance_verdict_of_reply (raw : String) : Bool :=
  compliance_approved (pyStrip raw)

/-- The full decision of `EvaluationAgent` on the raw reply. -/
def yes_verdict_of_reply (raw : String) : Bool :=
  yes_approved (pyStrip raw)

lemma startsWithChars_append_self (p t : List Char) :
    startsWithChars p (p ++ t) = true := by
  induction p with
  | nil => rfl
  | cons a as ih => simp [startsWithChars, ih]

lemma stripChars_append_of_solid_block (A rest : List Char) (hA : A ≠ [])
    (h1 : A.dropWhile Char.isWhitespace = A)
    (h2 : A.reverse.dropWhile Char.isWhitespace = A.reverse) :
    stripChars (A ++ rest) =
      A ++ (rest.reverse.dropWhile Char.isWhitespace).reverse := by
  unfold stripChars
  rw [List.dropWhile_append, h1]
  have hne : A.isEmpty = false := by
    cases A with
    | nil => exact absurd rfl hA
    | cons a as => rfl
  rw [if_neg (by simp [hne])]
  rw [List.reverse_append, List.dropWhile_append]
  split
  · next hemp =>
    have hnil : rest.reverse.dropWhile Char.isWhitespace = [] := by
      simpa using hemp
    rw [h2, hnil]
    simp
  · rw [List.reverse_append, List.reverse_reverse]

/-- C10: approval in the evaluator-optimizer loops is decided solely by a
case-insensitive leading-token test on the stripped reply: the compliance
loop approves exactly when the lowercased stripped reply starts with
"approved" (and `EvaluationAgent` with "yes"); any reply beginning with
the token is approved whatever follows, while a reply merely containing
the token later (such as "Not approved") is rejected. -/
theorem approval_decided_by_leading_token :
    (∀ raw : String, compliance_verdict_of_reply raw =
        startsWithChars "approved".data (lowerChars (stripChars raw.data))) ∧
    (∀ rest : List Char,
        compliance_verdict_of_reply (String.mk ("Approved".data ++ rest)) = true) ∧
    compliance_verdict_of_reply "Not approved" = false ∧
    (∀ raw : String, yes_verdict_of_reply raw =
        startsWithChars "yes".data (lowerChars (stripChars raw.data))) ∧
    (∀ rest : List Char,
        yes_verdict_of_reply (String.mk ("Yes".data ++ rest)) = true) ∧
    yes_verdict_of_reply "No - two criteria are unmet" = false := by
  refine ⟨fun raw => rfl, ?_, by decide, fun raw => rfl, ?_, by decide⟩
  · intro rest
    show startsWithChars "approved".data
      (lowerChars (stripChars ("Approved".data ++ rest))) = true
    rw [stripChars_append_of_solid_block "Approved".data rest
      (by decide) (by decide) (by decide)]
    unfold lowerChars
    rw [List.map_append]
    rw [show "Approved".data.map Char.toLower = "approved".data from by decide]
    exact startsWithChars_append_self _ _
  · intro rest
    show startsWithChars "yes".data
      (lowerChars (stripChars ("Yes".data ++ rest))) = true
    rw [stripChars_append_of_solid_block "Yes".data rest
      (by decide) (by decide) (by decide)]
    unfold lowerChars
    rw [List.map_append]
    rw [show "Yes".data.map Char.toLower = "yes".data from by decide]
    exact startsWithChars_append_self _ _

/-! ## Evaluator-optimizer loops: 06-evaluation_optimizer (C4, C5, C6) -/

/-- `EvaluationResult`, the pydantic contract of demo_professional.py
lines 22-25. -/
structure EvaluationResult where
  is_compliant : Bool
  feedback : String
  risk_score : Int
deriving DecidableEq, Repr

/-- The prompt built by `AsyncFinancialGenerator.generate`
(demo_professional.py lines 38-41): the base prompt alone on the first
cycle, the base prompt plus the single most recent feedback afterwards. -/
def generateFullPrompt (basePrompt : String) (feedback : Option String) :
    String :=
  match feedback with
  | none => basePrompt
  | some fb =>
    basePrompt ++ "\n\n--- COMPLIANCE FEEDBACK ---\n" ++ fb ++
      "\n\nINSTRUCTION: Rewrite the summary fixing the issues above."

/-- The ceiling of the demo loop (demo.py line 13). -/
def MAX_RETRIES : Nat := 5

/-- The default ceiling of the professional loop
(demo_professional.py line 84). -/
def professionalMaxRetries : Nat := 6

/-- `run_optimization_loop` of demo_professional.py (lines 84-113),
parametrized by the two Completion Service collaborators: `llmGen` maps
the generator prompt to the draft text, `evaluator` maps a draft to the
structured verdict.  The first argument of the recursion is the number
of iterations remaining in `for i in range(max_retries)`, the second the
`feedback` variable.  Returns the value returned to the caller (`some
draft` on approval, `none` on exhaustion) paired with the number of
Generator/Evaluator cycles performed. -/
def run_optimization_loop (llmGen : String → String)
    (evaluator : String → EvaluationResult) (basePrompt : String) :
    Nat → Option String → Option String × Nat
  | 0, _ => (none, 0)
  | Nat.succ n, feedback =>
    let draft := llmGen (generateFullPrompt basePrompt feedback)
    let result := evaluator draft
    if result.is_compliant then (some draft, 1)
    else
      let rest := run_optimization_loop llmGen evaluator basePrompt n
        (some result.feedback)
      (rest.1, rest.2 + 1)

/-- The value of the `feedback` variable before cycle `i` of
`run_optimization_loop` (cycles counted from 0): `none` initially, then
the feedback of the verdict on the previous cycle's draft. -/
def loopFeedback (llmGen : String → String)
    (evaluator : String → EvaluationResult) (basePrompt : String) :
    Nat → Option String
  | 0 => none
  | Nat.succ i =>
    some (evaluator (llmGen (generateFullPrompt basePrompt
      (loopFeedback llmGen evaluator basePrompt i)))).feedback

/-- The draft generated on cycle `i` of `run_optimization_loop`. -/
def loopDraft (llmGen : String → String)
    (evaluator : String → EvaluationResult) (basePrompt : String)
    (i : Nat) : String :=
  llmGen (generateFullPrompt basePrompt
    (loopFeedback llmGen evaluator basePrompt i))

lemma run_optimization_loop_all_rejected (llmGen : String → String)
    (evaluator : String → EvaluationResult) (basePrompt : String)
    (hrej : ∀ d, (evaluator d).is_compliant = false) :
    ∀ (n : Nat) (feedback : Option String),
      run_optimization_loop llmGen evaluator basePrompt n feedback =
        (none, n) := by
  intro n
  induction n with
  | zero => intro feedback; rfl
  | succ m ih =>
    intro feedback
    simp [run_optimization_loop, hrej, ih]

lemma run_optimization_loop_first_accept (llmGen : String → String)
    (evaluator : String → EvaluationResult) (basePrompt : String) :
    ∀ (k n j : Nat), k + 1 ≤ n →
      (∀ i, j ≤ i → i < j + k →
        (evaluator (loopDraft llmGen evaluator basePrompt i)).is_compliant
          = false) →
      (evaluator (loopDraft llmGen evaluator basePrompt (j + k))).is_compliant
        = true →
      run_optimization_loop llmGen evaluator basePrompt n
          (loopFeedback llmGen evaluator basePrompt j) =
        (some (loopDraft llmGen evaluator basePrompt (j + k)), k + 1) := by
  intro k
  induction k with
  | zero =>
    intro n j hn _ hacc
    obtain ⟨m, rfl⟩ : ∃ m, n = m + 1 := ⟨n - 1, by omega⟩
    simp only [run_optimization_loop]
    rw [show llmGen (generateFullPrompt basePrompt
      (loopFeedback llmGen evaluator basePrompt j)) =
        loopDraft llmGen evaluator basePrompt j from rfl]
    simp only [Nat.add_zero] at hacc
    simp [hacc]
  | succ k ih =>
    intro n j hn hrej hacc
    obtain ⟨m, rfl⟩ : ∃ m, n = m + 1 := ⟨n - 1, by omega⟩
    simp only [run_optimization_loop]
    rw [show llmGen (generateFullPrompt basePrompt
      (loopFeedback llmGen evaluator basePrompt j)) =
        loopDraft llmGen evaluator basePrompt j from rfl]
    have hj : (evaluator (loopDraft llmGen evaluator basePrompt j)).is_compliant
        = false := hrej j le_rfl (by omega)
    rw [hj]
    simp only [Bool.false_eq_true, if_false]
    have hstep : some (evaluator (loopDraft llmGen evaluator basePrompt
        j)).feedback = loopFeedback llmGen evaluator basePrompt (j + 1) := rfl
    rw [hstep]
    have := ih m (j + 1) (by omega)
      (fun i hi1 hi2 => hrej i (by omega) (by omega))
      (by rw [show j + 1 + k = j + (k + 1) from by omega]; exact hacc)
    rw [this]
    rw [show j + 1 + k = j + (k + 1) from by omega]

/-- The prompt mutation of `FinancialReportAgent.run` (demo.py lines
35-37): the original user prompt, plus the most recent evaluator
feedback when present. -/
def demoFullPrompt (prompt : String) (feedback : Option String) : String :=
  match feedback with
  | none => prompt
  | some fb =>
    prompt ++ "\n\nEvaluator feedback: " ++ fb ++ "\nPlease revise accordingly."

/-- The `main` loop of demo.py (lines 86-122): on each cycle the
generator produces `report_text` from the original prompt plus the
latest feedback, the compliance agent replies (its stripped text is
`evaluation`), and the loop stops when the reply starts with "approved";
otherwise the whole evaluation becomes the next feedback.  Returns
(whether it broke with approval, the last `report_text`, the number of
cycles performed). -/
def demo_compliance_loop (genLLM evalLLM : String → String)
    (userPrompt : String) : Nat → String → Option String →
    Bool × String × Nat
  | 0, reportText, _ => (false, reportText, 0)
  | Nat.succ n, _, feedback =>
    let reportText := genLLM (demoFullPrompt userPrompt feedback)
    let evaluation := pyStrip (evalLLM reportText)
    if compliance_approved evaluation then (true, reportText, 1)
    else
      let rest := demo_compliance_loop genLLM evalLLM userPrompt n reportText
        (some evaluation)
      (rest.1, rest.2.1, rest.2.2 + 1)

lemma demo_compliance_loop_all_rejected (genLLM evalLLM : String → String)
    (userPrompt : String)
    (hrej : ∀ r, compliance_approved (pyStrip (evalLLM r)) = false) :
    ∀ (n : Nat) (r0 : String) (feedback : Option String),
      (demo_compliance_loop genLLM evalLLM userPrompt n r0 feedback).1 = false ∧
      (demo_compliance_loop genLLM evalLLM userPrompt n r0 feedback).2.2 = n := by
  intro n
  induction n with
  | zero => intro r0 feedback; exact ⟨rfl, rfl⟩
  | succ m ih =>
    intro r0 feedback
    simp only [demo_compliance_loop, hrej, Bool.false_eq_true, if_false]
    exact ⟨(ih _ _).1, by rw [(ih _ _).2]⟩

/-- The value of the demo loop's `feedback` variable before cycle `i`:
`None` initially, afterwards the whole stripped evaluation text of the
previous cycle (demo.py line 115, `feedback = evaluation`). -/
def demoLoopFeedback (genLLM evalLLM : String → String)
    (userPrompt : String) : Nat → Option String
  | 0 => none
  | Nat.succ i =>
    some (pyStrip (evalLLM (genLLM (demoFullPrompt userPrompt
      (demoLoopFeedback genLLM evalLLM userPrompt i)))))

/-- The `report_text` generated on cycle `i` of the demo loop. -/
def demoLoopReport (genLLM evalLLM : String → String)
    (userPrompt : String) (i : Nat) : String :=
  genLLM (demoFullPrompt userPrompt
    (demoLoopFeedback genLLM evalLLM userPrompt i))

lemma demo_compliance_loop_first_accept (genLLM evalLLM : String → String)
    (userPrompt : String) :
    ∀ (k n j : Nat) (r0 : String), k + 1 ≤ n →
      (∀ i, j ≤ i → i < j + k →
        compliance_approved (pyStrip (evalLLM
          (demoLoopReport genLLM evalLLM userPrompt i))) = false) →
      compliance_approved (pyStrip (evalLLM
        (demoLoopReport genLLM evalLLM userPrompt (j + k)))) = true →
      demo_compliance_loop genLLM evalLLM userPrompt n r0
          (demoLoopFeedback genLLM evalLLM userPrompt j) =
        (true, demoLoopReport genLLM evalLLM userPrompt (j + k), k + 1) := by
  intro k
  induction k with
  | zero =>
    intro n j r0 hn _ hacc
    obtain ⟨m, rfl⟩ : ∃ m, n = m + 1 := ⟨n - 1, by omega⟩
    simp only [demo_compliance_loop]
    rw [show genLLM (demoFullPrompt userPrompt
      (demoLoopFeedback genLLM evalLLM userPrompt j)) =
        demoLoopReport genLLM evalLLM userPrompt j from rfl]
    simp only [Nat.add_zero] at hacc
    simp [hacc]
  | succ k ih =>
    intro n j r0 hn hrej hacc
    obtain ⟨m, rfl⟩ : ∃ m, n = m + 1 := ⟨n - 1, by omega⟩
    simp only [demo_compliance_loop]
    rw [show genLLM (demoFullPrompt userPrompt
      (demoLoopFeedback genLLM evalLLM userPrompt j)) =
        demoLoopReport genLLM evalLLM userPrompt j from rfl]
    have hj : compliance_approved (pyStrip (evalLLM
        (demoLoopReport genLLM evalLLM userPrompt j))) = false :=
      hrej j le_rfl (by omega)
    rw [hj]
    simp only [Bool.false_eq_true, if_false]
    have hstep : some (pyStrip (evalLLM (demoLoopReport genLLM evalLLM
        userPrompt j))) =
        demoLoopFeedback genLLM evalLLM userPrompt (j + 1) := rfl
    rw [hstep]
    have := ih m (j + 1) (demoLoopReport genLLM evalLLM userPrompt j)
      (by omega) (fun i hi1 hi2 => hrej i (by omega) (by omega))
      (by rw [show j + 1 + k = j + (k + 1) from by omega]; exact hacc)
    rw [this]
    rw [show j + 1 + k = j + (k + 1) from by omega]

/-- C4: both evaluator-optimizer loops respect their iteration ceiling.
Always-rejecting Evaluator: the professional loop performs exactly `N`
cycles and returns the failure value, and the demo loop performs
exactly `N` cycles without approval.  Evaluator first approving on
cycle `k < N` (0-based): each loop stops there, returns the cycle-`k`
candidate, and performs exactly `k + 1` Generator invocations — never a
`(k+1)`-th cycle after approval.  The loops are total functions of
their ceilings, so they never run unboundedly. -/
theorem evaluator_optimizer_iteration_ceiling :
    (∀ (llmGen : String → String) (evaluator : String → EvaluationResult)
        (basePrompt : String) (N : Nat),
      (∀ d, (evaluator d).is_compliant = false) →
      run_optimization_loop llmGen evaluator basePrompt N none = (none, N)) ∧
    (∀ (llmGen : String → String) (evaluator : String → EvaluationResult)
        (basePrompt : String) (N k : Nat),
      k < N →
      (∀ i, i < k →
        (evaluator (loopDraft llmGen evaluator basePrompt i)).is_compliant
          = false) →
      (evaluator (loopDraft llmGen evaluator basePrompt k)).is_compliant
        = true →
      run_optimization_loop llmGen evaluator basePrompt N none =
        (some (loopDraft llmGen evaluator basePrompt k), k + 1)) ∧
    (∀ (genLLM evalLLM : String → String) (userPrompt : String)
        (N : Nat) (r0 : String),
      (∀ r, compliance_approved (pyStrip (evalLLM r)) = false) →
      (demo_compliance_loop genLLM evalLLM userPrompt N r0 none).1 = false ∧
      (demo_compliance_loop genLLM evalLLM userPrompt N r0 none).2.2 = N) ∧
    (∀ (genLLM evalLLM : String → String) (userPrompt : String)
        (N k : Nat) (r0 : String),
      k < N →
      (∀ i, i < k →
        compliance_approved (pyStrip (evalLLM
          (demoLoopReport genLLM evalLLM userPrompt i))) = false) →
      compliance_approved (pyStrip (evalLLM
        (demoLoopReport genLLM evalLLM userPrompt k))) = true →
      demo_compliance_loop genLLM evalLLM userPrompt N r0 none =
        (true, demoLoopReport genLLM evalLLM userPrompt k, k + 1)) := by
  refine ⟨?_, ?_, ?_, ?_⟩
  · intro llmGen evaluator basePrompt N hrej
    exact run_optimization_loop_all_rejected llmGen evaluator basePrompt hrej N none
  · intro llmGen evaluator basePrompt N k hk hrej hacc
    have h := run_optimization_loop_first_accept llmGen evaluator basePrompt
      k N 0 (by omega) (fun i hi1 hi2 => hrej i (by omega))
      (by rw [Nat.zero_add]; exact hacc)
    rw [show loopFeedback llmGen evaluator basePrompt 0 = none from rfl] at h
    rw [h, Nat.zero_add]
  · intro genLLM evalLLM userPrompt N r0 hrej
    exact demo_compliance_loop_all_rejected genLLM evalLLM userPrompt hrej N r0 none
  · intro genLLM evalLLM userPrompt N k r0 hk hrej hacc
    have h := demo_compliance_loop_first_accept genLLM evalLLM userPrompt
      k N 0 r0 (by omega) (fun i hi1 hi2 => hrej i (by omega))
      (by rw [Nat.zero_add]; exact hacc)
    rw [show demoLoopFeedback genLLM evalLLM userPrompt 0 = none from rfl] at h
    rw [h, Nat.zero_add]

/-- Witness for C4: an always-rejecting professional run performs exactly
6 cycles and an always-rejecting demo run exactly 5; and with evaluators
that first approve on cycle 1, both the professional loop and the demo
loop stop after exactly 2 cycles and return the cycle-1 candidate. -/
theorem evaluator_optimizer_iteration_ceiling_witness :
    run_optimization_loop (fun p => "draft for: " ++ p)
        (fun _ => ⟨false, "remove speculative language", 9⟩)
        "Write a DeFi investor summary" professionalMaxRetries none
      = (none, professionalMaxRetries) ∧
    (demo_compliance_loop (fun p => "report for: " ++ p)
        (fun _ => "Not approved: too much hype")
        "Write an investor summary" MAX_RETRIES "" none).2.2 = MAX_RETRIES ∧
    run_optimization_loop (fun p => "draft: " ++ p)
        (fun d => if d = "draft: base" then ⟨false, "fix the tone", 7⟩
          else ⟨true, "", 2⟩) "base" professionalMaxRetries none
      = (some (loopDraft (fun p => "draft: " ++ p)
          (fun d => if d = "draft: base" then ⟨false, "fix the tone", 7⟩
            else ⟨true, "", 2⟩) "base" 1), 2) ∧
    demo_compliance_loop (fun p => "report: " ++ p)
        (fun r => if r = "report: ask" then "Not approved: hype" else "Approved")
        "ask" MAX_RETRIES "" none
      = (true, demoLoopReport (fun p => "report: " ++ p)
          (fun r => if r = "report: ask" then "Not approved: hype"
            else "Approved") "ask" 1, 2) :=
  ⟨evaluator_optimizer_iteration_ceiling.1 _ _ _ professionalMaxRetries
      (fun _ => rfl),
    (evaluator_optimizer_iteration_ceiling.2.2.1 _ _ _ MAX_RETRIES ""
      (fun _ => by decide)).2,
    evaluator_optimizer_iteration_ceiling.2.1 _ _ "base"
      professionalMaxRetries 1 (by decide)
      (by
        intro i hi
        have hz : i = 0 := by omega
        subst hz
        decide)
      (by decide),
    evaluator_optimizer_iteration_ceiling.2.2.2 _ _ "ask" MAX_RETRIES 1 ""
      (by decide)
      (by
        intro i hi
        have hz : i = 0 := by omega
        subst hz
        decide)
      (by decide)⟩

/-- The sequence of prompts passed to the generator LLM across the
cycles of `run_optimization_loop` (same recursion, instrumented to
record each cycle's generator prompt). -/
def run_optimization_prompts (llmGen : String → String)
    (evaluator : String → EvaluationResult) (basePrompt : String) :
    Nat → Option String → List String
  | 0, _ => []
  | Nat.succ n, feedback =>
    let p := generateFullPrompt basePrompt feedback
    let result := evaluator (llmGen p)
    if result.is_compliant then [p]
    else p :: run_optimization_prompts llmGen evaluator basePrompt n
      (some result.feedback)

lemma run_optimization_prompts_length (llmGen : String → String)
    (evaluator : String → EvaluationResult) (basePrompt : String) :
    ∀ (n : Nat) (feedback : Option String),
      (run_optimization_prompts llmGen evaluator basePrompt n feedback).length
        = (run_optimization_loop llmGen evaluator basePrompt n feedback).2 := by
  intro n
  induction n with
  | zero => intro feedback; rfl
  | succ m ih =>
    intro feedback
    simp only [run_optimization_prompts, run_optimization_loop]
    split
    · rfl
    · simp [ih]

lemma run_optimization_prompts_head (llmGen : String → String)
    (evaluator : String → EvaluationResult) (basePrompt : String) :
    ∀ (n : Nat) (feedback : Option String), 0 < n →
      (run_optimization_prompts llmGen evaluator basePrompt n
        feedback).getD 0 "" = generateFullPrompt basePrompt feedback := by
  intro n feedback hn
  obtain ⟨m, rfl⟩ : ∃ m, n = m + 1 := ⟨n - 1, by omega⟩
  simp only [run_optimization_prompts]
  split <;> rfl

lemma run_optimization_prompts_step (llmGen : String → String)
    (evaluator : String → EvaluationResult) (basePrompt : String) :
    ∀ (n : Nat) (feedback : Option String) (i : Nat),
      i + 1 < (run_optimization_prompts llmGen evaluator basePrompt n
        feedback).length →
      (run_optimization_prompts llmGen evaluator basePrompt n
          feedback).getD (i + 1) "" =
        generateFullPrompt basePrompt
          (some ((evaluator (llmGen ((run_optimization_prompts llmGen
            evaluator basePrompt n feedback).getD i ""))).feedback)) := by
  intro n
  induction n with
  | zero => intro feedback i h; simp [run_optimization_prompts] at h
  | succ m ih =>
    intro feedback i h
    simp only [run_optimization_prompts] at h ⊢
    by_cases hc : (evaluator (llmGen (generateFullPrompt basePrompt
        feedback))).is_compliant = true
    · rw [if_pos hc] at h
      simp at h
    · rw [if_neg hc] at h ⊢
      cases i with
      | zero =>
        simp only [List.getD_cons_succ, List.getD_cons_zero]
        have hlen : 0 < (run_optimization_prompts llmGen evaluator basePrompt m
            (some ((evaluator (llmGen (generateFullPrompt basePrompt
              feedback))).feedback))).length := by
          simp only [List.length_cons] at h
          omega
        have hm : 0 < m := by
          by_contra hz
          push_neg at hz
          interval_cases m
          simp [run_optimization_prompts] at hlen
        exact run_optimization_prompts_head llmGen evaluator basePrompt m _ hm
      | succ j =>
        simp only [List.getD_cons_succ]
        apply ih
        simp only [List.length_cons] at h
        omega

/-- The sequence of prompts given to the generator across the cycles of
the demo loop of demo.py (`report_agent.run(user_prompt, feedback)`). -/
def demo_loop_prompts (genLLM evalLLM : String → String)
    (userPrompt : String) : Nat → Option String → List String
  | 0, _ => []
  | Nat.succ n, feedback =>
    let p := demoFullPrompt userPrompt feedback
    let evaluation := pyStrip (evalLLM (genLLM p))
    if compliance_approved evaluation then [p]
    else p :: demo_loop_prompts genLLM evalLLM userPrompt n (some evaluation)

lemma demo_loop_prompts_head (genLLM evalLLM : String → String)
    (userPrompt : String) :
    ∀ (n : Nat) (feedback : Option String), 0 < n →
      (demo_loop_prompts genLLM evalLLM userPrompt n feedback).getD 0 ""
        = demoFullPrompt userPrompt feedback := by
  intro n feedback hn
  obtain ⟨m, rfl⟩ : ∃ m, n = m + 1 := ⟨n - 1, by omega⟩
  simp only [demo_loop_prompts]
  split <;> rfl

lemma demo_loop_prompts_step (genLLM evalLLM : String → String)
    (userPrompt : String) :
    ∀ (n : Nat) (feedback : Option String) (i : Nat),
      i + 1 < (demo_loop_prompts genLLM evalLLM userPrompt n feedback).length →
      (demo_loop_prompts genLLM evalLLM userPrompt n feedback).getD (i + 1) ""
        = demoFullPrompt userPrompt
            (some (pyStrip (evalLLM (genLLM ((demo_loop_prompts genLLM evalLLM
              userPrompt n feedback).getD i ""))))) := by
  intro n
  induction n with
  | zero => intro feedback i h; simp [demo_loop_prompts] at h
  | succ m ih =>
    intro feedback i h
    simp only [demo_loop_prompts] at h ⊢
    by_cases hc : compliance_approved (pyStrip (evalLLM (genLLM
        (demoFullPrompt userPrompt feedback)))) = true
    · rw [if_pos hc] at h
      simp at h
    · rw [if_neg hc] at h ⊢
      cases i with
      | zero =>
        simp only [List.getD_cons_succ, List.getD_cons_zero]
        have hlen : 0 < (demo_loop_prompts genLLM evalLLM userPrompt m
            (some (pyStrip (evalLLM (genLLM (demoFullPrompt userPrompt
              feedback)))))).length := by
          simp only [List.length_cons] at h
          omega
        have hm : 0 < m := by
          by_contra hz
          push_neg at hz
          interval_cases m
          simp [demo_loop_prompts] at hlen
        exact demo_loop_prompts_head genLLM evalLLM userPrompt m _ hm
      | succ j =>
        simp only [List.getD_cons_succ]
        apply ih
        simp only [List.length_cons] at h
        omega

/-- C5: after a rejection, the next generator invocation is conditioned
on exactly the original request plus the single most recent feedback: in
both loops, the first recorded generator prompt is the original request
alone, and the `(i+1)`-th prompt equals the prompt builder applied to
the original request and the cycle-`i` verdict's feedback only (in the
demo loop, the feedback is the whole stripped evaluation text).  Earlier
feedback never enters: the equation determines the next prompt from the
original request and the latest feedback alone.  The trace has exactly
one entry per performed cycle. -/
theorem generator_prompt_uses_only_latest_feedback :
    (∀ (llmGen : String → String) (evaluator : String → EvaluationResult)
        (basePrompt : String) (N : Nat),
      (run_optimization_prompts llmGen evaluator basePrompt N none).length
        = (run_optimization_loop llmGen evaluator basePrompt N none).2 ∧
      (0 < (run_optimization_prompts llmGen evaluator basePrompt N
          none).length →
        (run_optimization_prompts llmGen evaluator basePrompt N none).getD 0 ""
          = basePrompt) ∧
      (∀ i, i + 1 < (run_optimization_prompts llmGen evaluator basePrompt N
          none).length →
        (run_optimization_prompts llmGen evaluator basePrompt N
            none).getD (i + 1) "" =
          generateFullPrompt basePrompt
            (some ((evaluator (llmGen ((run_optimization_prompts llmGen
              evaluator basePrompt N none).getD i ""))).feedback)))) ∧
    (∀ (genLLM evalLLM : String → String) (userPrompt : String) (N : Nat),
      (0 < (demo_loop_prompts genLLM evalLLM userPrompt N none).length →
        (demo_loop_prompts genLLM evalLLM userPrompt N none).getD 0 ""
          = userPrompt) ∧
      (∀ i, i + 1 < (demo_loop_prompts genLLM evalLLM userPrompt N
          none).length →
        (demo_loop_prompts genLLM evalLLM userPrompt N none).getD (i + 1) ""
          = demoFullPrompt userPrompt
              (some (pyStrip (evalLLM (genLLM ((demo_loop_prompts genLLM
                evalLLM userPrompt N none).getD i ""))))))) := by
  constructor
  · intro llmGen evaluator basePrompt N
    refine ⟨run_optimization_prompts_length llmGen evaluator basePrompt N none,
      ?_, fun i hi =>
        run_optimization_prompts_step llmGen evaluator basePrompt N none i hi⟩
    intro hlen
    have hN : 0 < N := by
      by_contra hz
      push_neg at hz
      interval_cases N
      simp [run_optimization_prompts] at hlen
    exact run_optimization_prompts_head llmGen evaluator basePrompt N none hN
  · intro genLLM evalLLM userPrompt N
    refine ⟨?_, fun i hi =>
      demo_loop_prompts_step genLLM evalLLM userPrompt N none i hi⟩
    intro hlen
    have hN : 0 < N := by
      by_contra hz
      push_neg at hz
      interval_cases N
      simp [demo_loop_prompts] at hlen
    exact demo_loop_prompts_head genLLM evalLLM userPrompt N none hN

/-- Witness for C5: in a concrete 3-cycle rejected run the second
generator prompt is built from the original request and the first
verdict's feedback alone. -/
theorem generator_prompt_uses_only_latest_feedback_witness :
    (run_optimization_prompts (fun p => "draft for: " ++ p)
        (fun _ => ⟨false, "tone it down", 8⟩) "Write a summary" 3
        none).getD 1 "" =
      generateFullPrompt "Write a summary"
        (some (((fun (_ : String) =>
            (⟨false, "tone it down", 8⟩ : EvaluationResult))
          ((fun p => "draft for: " ++ p)
            ((run_optimization_prompts (fun p => "draft for: " ++ p)
              (fun _ => ⟨false, "tone it down", 8⟩) "Write a summary" 3
              none).getD 0 ""))).feedback)) :=
  ((generator_prompt_uses_only_latest_feedback.1 (fun p => "draft for: " ++ p)
    (fun _ => ⟨false, "tone it down", 8⟩) "Write a summary" 3).2.2 0
    (by decide))

/-- C6 counterexample: two always-rejected professional runs whose last
candidates differ return the identical failure value `(none, 6)` —
`run_optimization_loop` returns `None` on exhaustion
(demo_professional.py line 113), so the returned value carries neither
the last generated candidate nor the last verdict, and the caller cannot
recover them from it. -/
theorem exhaustion_return_carries_no_candidate_counterexample :
    run_optimization_loop (fun p => "draft A: " ++ p)
        (fun _ => ⟨false, "still speculative", 9⟩)
        "DeFi summary" professionalMaxRetries none
      = (none, professionalMaxRetries) ∧
    run_optimization_loop (fun p => "draft B: " ++ p)
        (fun _ => ⟨false, "still speculative", 9⟩)
        "DeFi summary" professionalMaxRetries none
      = (none, professionalMaxRetries) ∧
    loopDraft (fun p => "draft A: " ++ p)
        (fun _ => ⟨false, "still speculative", 9⟩) "DeFi summary"
        (professionalMaxRetries - 1)
      ≠ loopDraft (fun p => "draft B: " ++ p)
        (fun _ => ⟨false, "still speculative", 9⟩) "DeFi summary"
        (professionalMaxRetries - 1) := by
  refine ⟨rfl, rfl, by decide⟩

/-! ## EvaluationAgent of base_agents.py (C6 amended) -/

/-- The dict returned by `EvaluationAgent.evaluate`. -/
structure EvalAgentOutcome where
  final_response : String
  evaluation : String
  iterations : Nat
deriving DecidableEq, Repr

/-- The evaluation prompt of base_agents.py lines 396-402 (quotation
marks of the original text omitted). -/
def eval_prompt_text (response criteria : String) : String :=
  "Think step-by-step: Compare each part of the following answer against the criteria.\n\nAnswer: "
    ++ response ++ "\n\nCriteria: " ++ criteria ++
    "\n\nCheck if ALL criteria are met. Identify specific issues if any.\nRespond with Yes or No at the start, followed by the reason why it does or does not meet the criteria."

/-- The correction-instruction prompt of base_agents.py lines 428-432. -/
def instruction_prompt_text (evaluation : String) : String :=
  "Identify the problems in the evaluation below, think about how to fix them, and provide concrete, actionable steps to correct the issues.\n\nEvaluation: "
    ++ evaluation

/-- The refinement prompt of base_agents.py lines 446-451. -/
def refine_prompt_text (initialPrompt response instructions : String) :
    String :=
  "The original prompt was: " ++ initialPrompt ++
    "\nThe response to that prompt was: " ++ response ++
    "\nIt has been evaluated as incorrect.\nMake only these corrections, do not alter content validity: "
    ++ instructions

/-- The `for i in range(max_interactions)` loop of
`EvaluationAgent.evaluate` (base_agents.py lines 384-459).  `worker` is
`worker_agent.respond`, `evalLLM` and `instrLLM` the two completion
calls (their text is stripped as in the source).  `i` is the loop index,
`promptToEvaluate` the prompt under refinement, and `lastPair` the
values of `response_from_worker` and `evaluation` left over from the
previous iteration (used by the after-loop return; `none` before the
first iteration, where the Python after-loop return would fault on
unbound locals). -/
def evaluation_agent_loop (worker evalLLM instrLLM : String → String)
    (criteria initialPrompt : String) (maxInteractions : Nat) :
    Nat → String → Option (String × String) → Option EvalAgentOutcome
  | i, promptToEvaluate, lastPair =>
    if h : i < maxInteractions then
      let response := worker promptToEvaluate
      let evaluation := pyStrip (evalLLM (eval_prompt_text response criteria))
      if yes_approved evaluation then some ⟨response, evaluation, i + 1⟩
      else
        let instructions :=
          pyStrip (instrLLM (instruction_prompt_text evaluation))
        evaluation_agent_loop worker evalLLM instrLLM criteria initialPrompt
          maxInteractions (i + 1)
          (refine_prompt_text initialPrompt response instructions)
          (some (response, evaluation))
    else
      lastPair.map (fun p => ⟨p.1, p.2, maxInteractions⟩)
termination_by i _ _ => maxInteractions - i

/-- `EvaluationAgent.evaluate` entered at the top of the loop. -/
def evaluation_agent_evaluate (worker evalLLM instrLLM : String → String)
    (criteria initialPrompt : String) (maxInteractions : Nat) :
    Option EvalAgentOutcome :=
  evaluation_agent_loop worker evalLLM instrLLM criteria initialPrompt
    maxInteractions 0 initialPrompt none

/-- The value of `prompt_to_evaluate` at the start of iteration `i`. -/
def agent_prompt (worker evalLLM instrLLM : String → String)
    (criteria initialPrompt : String) : Nat → String
  | 0 => initialPrompt
  | Nat.succ i =>
    let response :=
      worker (agent_prompt worker evalLLM instrLLM criteria initialPrompt i)
    let evaluation := pyStrip (evalLLM (eval_prompt_text response criteria))
    let instructions := pyStrip (instrLLM (instruction_prompt_text evaluation))
    refine_prompt_text initialPrompt response instructions

/-- The worker response of iteration `i`. -/
def agent_response (worker evalLLM instrLLM : String → String)
    (criteria initialPrompt : String) (i : Nat) : String :=
  worker (agent_prompt worker evalLLM instrLLM criteria initialPrompt i)

/-- The stripped evaluation text of iteration `i`. -/
def agent_evaluation (worker evalLLM instrLLM : String → String)
    (criteria initialPrompt : String) (i : Nat) : String :=
  pyStrip (evalLLM (eval_prompt_text
    (agent_response worker evalLLM instrLLM criteria initialPrompt i)
    criteria))

lemma evaluation_agent_loop_exhausts (worker evalLLM instrLLM : String → String)
    (criteria initialPrompt : String) (n : Nat)
    (hrej : ∀ p, yes_approved (pyStrip (evalLLM p)) = false) :
    ∀ (d i : Nat) (lastPair : Option (String × String)), i + d + 1 = n →
      evaluation_agent_loop worker evalLLM instrLLM criteria initialPrompt n i
          (agent_prompt worker evalLLM instrLLM criteria initialPrompt i)
          lastPair =
        some ⟨agent_response worker evalLLM instrLLM criteria initialPrompt
          (n - 1),
          agent_evaluation worker evalLLM instrLLM criteria initialPrompt
          (n - 1), n⟩ := by
  intro d
  induction d with
  | zero =>
    intro i lastPair hi
    rw [evaluation_agent_loop]
    rw [dif_pos (by omega : i < n)]
    dsimp only []
    rw [hrej]
    simp only [Bool.false_eq_true, if_false]
    rw [evaluation_agent_loop]
    rw [dif_neg (by omega : ¬ i + 1 < n)]
    have hi' : i = n - 1 := by omega
    subst hi'
    rfl
  | succ d ih =>
    intro i lastPair hi
    rw [evaluation_agent_loop]
    rw [dif_pos (by omega : i < n)]
    dsimp only []
    rw [hrej]
    simp only [Bool.false_eq_true, if_false]
    have hnext : refine_prompt_text initialPrompt
        (worker (agent_prompt worker evalLLM instrLLM criteria initialPrompt i))
        (pyStrip (instrLLM (instruction_prompt_text (pyStrip (evalLLM
          (eval_prompt_text (worker (agent_prompt worker evalLLM instrLLM
            criteria initialPrompt i)) criteria)))))) =
        agent_prompt worker evalLLM instrLLM criteria initialPrompt (i + 1) :=
      rfl
    rw [hnext]
    exact ih (i + 1) _ (by omega)

/-- C6 amended: of the three evaluator-optimizer implementations, only
`EvaluationAgent.evaluate` returns the last candidate and last verdict
to the caller on exhaustion: with an always-rejecting evaluator and a
positive ceiling `n` it returns the record carrying the final
iteration's worker response, its stripped evaluation text, and the
iteration count `n`.  The professional loop instead returns `None`
(see the counterexample), and the demo loop only prints. -/
theorem evaluation_agent_exhaustion_returns_last_candidate
    (worker evalLLM instrLLM : String → String)
    (criteria initialPrompt : String) (n : Nat)
    (hrej : ∀ p, yes_approved (pyStrip (evalLLM p)) = false) (hn : 0 < n) :
    evaluation_agent_evaluate worker evalLLM instrLLM criteria initialPrompt n
      = some ⟨agent_response worker evalLLM instrLLM criteria initialPrompt
          (n - 1),
          agent_evaluation worker evalLLM instrLLM criteria initialPrompt
          (n - 1), n⟩ := by
  have h := evaluation_agent_loop_exhausts worker evalLLM instrLLM criteria
    initialPrompt n hrej (n - 1) 0 none (by omega)
  rw [show agent_prompt worker evalLLM instrLLM criteria initialPrompt 0 =
    initialPrompt from rfl] at h
  exact h

/-- Witness for the amended C6 theorem: a concrete 2-iteration rejected
run returns the last response and last evaluation. -/
theorem evaluation_agent_exhaustion_returns_last_candidate_witness :
    evaluation_agent_evaluate (fun p => "answer to: " ++ p)
        (fun _ => "No - the user stories lack acceptance criteria")
        (fun _ => "add acceptance criteria to each story")
        "stories must have acceptance criteria" "define user stories" 2
      = some ⟨agent_response (fun p => "answer to: " ++ p)
          (fun _ => "No - the user stories lack acceptance criteria")
          (fun _ => "add acceptance criteria to each story")
          "stories must have acceptance criteria" "define user stories" 1,
          agent_evaluation (fun p => "answer to: " ++ p)
          (fun _ => "No - the user stories lack acceptance criteria")
          (fun _ => "add acceptance criteria to each story")
          "stories must have acceptance criteria" "define user stories" 1,
          2⟩ :=
  evaluation_agent_exhaustion_returns_last_candidate _ _ _ _ _ 2
    (fun _ => by decide) (by decide)

/-! ## Parallel fan-out synthesis: 05-parallelization (C7) -/

/-- Python slice `contract_text[:300]` (challenge.py line 145). -/
def take300 (s : String) : String := String.mk (s.data.take 300)

/-- Python `inputs.get(key, default)` on the shared `agent_outputs`
result map (modelled as an association list keyed by specialist name; a
missing key is a specialist whose thread failed before writing). -/
def dictGet (inputs : List (String × String)) (key default : String) :
    String :=
  match inputs.lookup key with
  | some v => v
  | none => default

/-- The user prompt assembled by `SummaryAgent.run` of challenge.py
(lines 124-160): the three findings are retrieved with `.get` and the
declared per-specialist default placeholder. -/
def challenge_summary_user_prompt (contractText : String)
    (inputs : List (String × String)) : String :=
  let legalFindings := dictGet inputs "legal" "No legal analysis provided."
  let complianceFindings :=
    dictGet inputs "compliance" "No compliance analysis provided."
  let financialFindings :=
    dictGet inputs "financial" "No financial analysis provided."
  "\n        Please synthesize the following analyses into an Executive Summary.\n        \n        --- ORIGINAL TEXT SNIPPET ---\n        "
    ++ take300 contractText ++
    "...\n        \n        --- LEGAL ANALYSIS ---\n        "
    ++ legalFindings ++
    "\n        \n        --- COMPLIANCE ANALYSIS ---\n        "
    ++ complianceFindings ++
    "\n        \n        --- FINANCIAL ANALYSIS ---\n        "
    ++ financialFindings ++
    "\n        \n        Output format:\n        1. Executive Verdict (GO / NO-GO)\n        2. Top 3 Critical Risks\n        3. Recommended Actions\n        "

/-- The same text as a function of the three findings (the spec-side
decomposition used to state which finding lands in which slot). -/
def challenge_summary_template (contractText legalFindings
    complianceFindings financialFindings : String) : String :=
  "\n        Please synthesize the following analyses into an Executive Summary.\n        \n        --- ORIGINAL TEXT SNIPPET ---\n        "
    ++ take300 contractText ++
    "...\n        \n        --- LEGAL ANALYSIS ---\n        "
    ++ legalFindings ++
    "\n        \n        --- COMPLIANCE ANALYSIS ---\n        "
    ++ complianceFindings ++
    "\n        \n        --- FINANCIAL ANALYSIS ---\n        "
    ++ financialFindings ++
    "\n        \n        Output format:\n        1. Executive Verdict (GO / NO-GO)\n        2. Top 3 Critical Risks\n        3. Recommended Actions\n        "

/-- The `combined_prompt` of `SummaryAgent.run` in 05-parallelization/
demo.py (lines 85-92), which indexes the result map directly
(`inputs["policy"]` and so on): a missing key raises `KeyError`, so the
prompt (and with it the synthesis step) is undefined — modelled as
`none` (quotation marks of the original text omitted). -/
def demo_combined_prompt (prompt : String)
    (inputs : List (String × String)) : Option String :=
  match inputs.lookup "policy", inputs.lookup "tech",
      inputs.lookup "market" with
  | some policy, some tech, some market =>
    some ("The user asked: " ++ prompt ++
      "\n\nHere are the expert responses:\n- Policy Expert: " ++ policy ++
      "\n\n- Technology Expert: " ++ tech ++
      "\n\n- Market Expert: " ++ market ++
      "\n\nPlease summarize the combined insights into a single clear and concise response.")
  | _, _, _ => none

/-- C7 counterexample: in demo.py the synthesis step is NOT defined for
every subset of present keys — with the "policy" specialist failed (key
absent) and the other two present, building the synthesis prompt raises
`KeyError` (here: evaluates to `none`), aborting the synthesis. -/
theorem fanout_missing_key_aborts_synthesis_counterexample :
    demo_combined_prompt
      "What are current trends shaping the future of the energy industry?"
      [("tech", "grid storage is scaling fast"),
       ("market", "investment shifts to renewables")] = none := by
  decide

/-- C7 amended: the graceful-degradation property holds for the
challenge.py synthesis step: its input is defined for every subset of
present keys, and each slot receives the stored finding when the key is
present and the declared default placeholder when it is absent.  The
demo.py synthesis input, by contrast, is defined exactly when all three
specialist keys are present. -/
theorem fanout_graceful_degradation_amended :
    (∀ (contractText : String) (inputs : List (String × String)),
      challenge_summary_user_prompt contractText inputs =
        challenge_summary_template contractText
          (dictGet inputs "legal" "No legal analysis provided.")
          (dictGet inputs "compliance" "No compliance analysis provided.")
          (dictGet inputs "financial" "No financial analysis provided.")) ∧
    (∀ (inputs : List (String × String)) (key default : String),
      inputs.lookup key = none → dictGet inputs key default = default) ∧
    (∀ (inputs : List (String × String)) (key default v : String),
      inputs.lookup key = some v → dictGet inputs key default = v) ∧
    (∀ (prompt : String) (inputs : List (String × String)),
      (demo_combined_prompt prompt inputs).isSome = true ↔
        ((inputs.lookup "policy").isSome = true ∧
         (inputs.lookup "tech").isSome = true ∧
         (inputs.lookup "market").isSome = true)) := by
  refine ⟨fun contractText inputs => rfl, ?_, ?_, ?_⟩
  · intro inputs key default h
    unfold dictGet
    rw [h]
  · intro inputs key default v h
    unfold dictGet
    rw [h]
  · intro prompt inputs
    cases hp : inputs.lookup "policy" <;>
      cases ht : inputs.lookup "tech" <;>
      cases hm : inputs.lookup "market" <;>
      simp [demo_combined_prompt, hp, ht, hm]

/-- Witness for the amended C7 theorem: a failed legal specialist is
replaced by its placeholder while a present compliance result is passed
through. -/
theorem fanout_graceful_degradation_amended_witness :
    dictGet [("compliance", "meets GDPR"), ("financial", "low exposure")]
        "legal" "No legal analysis provided."
      = "No legal analysis provided." ∧
    dictGet [("compliance", "meets GDPR"), ("financial", "low exposure")]
        "compliance" "No compliance analysis provided."
      = "meets GDPR" :=
  ⟨fanout_graceful_degradation_amended.2.1 _ "legal" _ (by decide),
   fanout_graceful_degradation_amended.2.2.1 _ "compliance" _ "meets GDPR"
     (by decide)⟩
